import Mathlib

/-!
Shallow embedding of the AuraSense Vercel serverless handlers.

Two handler shapes exist in the repository:

* the prediction-relay handler (src/api/index.js, src/index.js,
  src/unnamed/part_000 — near-identical copies; we embed the first
  document of src/api/index.js, whose lines the claims cite): validates
  hr/userId, POSTs a payload to the Render prediction endpoint,
  interprets the response, PATCHes the prediction into Firestore
  (write errors are caught and logged inside writeToFirestore), and
  answers the HTTP client;

* the raw-upload variant (src/unnamed/part_001): no field validation
  (userId defaults to the string user1), checks the Firebase
  credentials first, writes the raw readings straight to Firestore via
  POST, and surfaces a write failure as a 500; it never contacts the
  prediction service.

JavaScript values that may be undefined are modelled as Option types;
numbers as Rat (the handlers only copy them, no arithmetic happens);
JS truthiness of a number is nonzero-ness and of a string is
nonemptiness.  The environment supplies the prediction-service
outcome, whether the Firestore write succeeds, and the wall-clock
string produced at write time.  A handler run returns the
HTTP response together with the ordered list of outbound calls it
issued.
-/

namespace AuraSense

/-- JS truthiness of a possibly-undefined number: undefined and 0 are falsy. -/
def truthyNum : Option Rat → Bool
  | none => false
  | some x => decide (x ≠ 0)

/-- JS truthiness of a possibly-undefined string: undefined and the empty string are falsy. -/
def truthyStr : Option String → Bool
  | none => false
  | some s => decide (s ≠ "")

/-- Template-literal interpolation of a possibly-undefined JS string value. -/
def jsShow : Option String → String
  | none => "undefined"
  | some s => s

/-- Environment-provided configuration: FIREBASE_API_KEY and FIREBASE_PROJECT_ID. -/
structure Config where
  FIREBASE_API_KEY : Option String
  FIREBASE_PROJECT_ID : Option String
deriving DecidableEq, Repr

/-- The decoded JSON request body; every field may be absent. -/
structure ReqBody where
  hr : Option Rat
  hrv : Option Rat
  bt : Option Rat
  spo2 : Option Rat
  userId : Option String
deriving DecidableEq, Repr

/-- An inbound HTTP request: its method and decoded body. -/
structure Request where
  method : String
  body : ReqBody
deriving DecidableEq, Repr

/-- The raw sub-object of the prediction-service payload. -/
structure RawFields where
  HR : Option Rat
  HRV : Option Rat
  BT : Option Rat
deriving DecidableEq, Repr

/-- The payload POSTed to the Render prediction endpoint. -/
structure ApiPayload where
  mode : String
  raw : RawFields
deriving DecidableEq, Repr

/-- Construction of the prediction-service payload from the destructured body,
    mirroring the apiPayload object literal in the handler. -/
def apiPayload (hr hrv bt : Option Rat) : ApiPayload :=
  { mode := "raw", raw := { HR := hr, HRV := hrv, BT := bt } }

/-- The JSON body of a 2xx prediction-service response. -/
structure PredData where
  stress_level : Option String
  probabilities : Option (List (String × Rat))
deriving DecidableEq, Repr

/-- What the prediction-service call does: a 2xx response (whose data may be
    empty/falsy, modelled as none) or a thrown error (network failure or
    non-2xx status, which axios raises as an exception). -/
inductive PredOutcome where
  | ok (data : Option PredData)
  | fail
deriving DecidableEq, Repr

/-- Firestore REST typed field values. A doubleValue wraps a JS value that can
    be undefined (the raw-upload variant writes unvalidated readings). -/
inductive FsValue where
  | stringValue (s : String)
  | doubleValue (x : Option Rat)
  | timestampValue (t : String)
  | mapValue (fields : List (String × FsValue))

/-- An outbound call issued by a handler: either the POST to the prediction
    service, or a Firestore REST write (with its HTTP verb, URL and typed
    field map). -/
inductive OutCall where
  | predictionCall (url : String) (payload : ApiPayload)
  | firestoreWrite (verb : String) (url : String) (fields : List (String × FsValue))

/-- Recognizes a Firestore write in the trace of outbound calls. -/
def isFirestoreWrite : OutCall → Bool
  | .firestoreWrite _ _ _ => true
  | _ => false

/-- Recognizes a prediction-service call in the trace of outbound calls. -/
def isPredictionCall : OutCall → Bool
  | .predictionCall _ _ => true
  | _ => false

/-- The possible HTTP response bodies the handlers send. -/
inductive RespBody where
  | text (s : String)
  | errorObj (error : String)
  | successObj (prediction : String)
  | messageObj (message : String)
  | uploadObj (message : String)
deriving DecidableEq, Repr

/-- An HTTP response: status, body, and headers set via res.setHeader. -/
structure Response where
  status : Nat
  body : RespBody
  headers : List (String × String)
deriving DecidableEq, Repr

/-- The environment a single invocation runs in: what the prediction service
    answers, whether the Firestore write succeeds, and the ISO-8601 string
    that new Date().toISOString() produces at write time. -/
structure Env where
  predOutcome : PredOutcome
  writeOk : Bool
  now : String
deriving DecidableEq, Repr

/-- The observable result of one invocation: the HTTP response and the ordered
    trace of outbound calls issued. -/
structure HandlerResult where
  response : Response
  calls : List OutCall

/-- Number of Firestore writes issued by a run. -/
def writeCount (r : HandlerResult) : Nat :=
  r.calls.countP isFirestoreWrite

/-- Number of prediction-service calls issued by a run. -/
def predCallCount (r : HandlerResult) : Nat :=
  r.calls.countP isPredictionCall

/-- The hardcoded prediction endpoint. -/
def RENDER_API_ENDPOINT : String := "https://aurasense-api.onrender.com/predict"

/-- The Firestore document path of the relay handler:
    user_display/userId/readings/latest under the configured project. -/
def firestoreDocPath (cfg : Config) (userId : Option String) : String :=
  "projects/" ++ jsShow cfg.FIREBASE_PROJECT_ID ++
    "/databases/(default)/documents/user_display/" ++ jsShow userId ++
    "/readings/latest"

/-- The data object the relay handler passes to writeToFirestore. -/
structure WriteData where
  stress_level : String
  probabilities : Option (List (String × Rat))
  hr : Option Rat
deriving DecidableEq, Repr

/-- writeToFirestore of src/api/index.js: builds the typed field map
    (stress_level, hr, timestamp, and — only when probabilities is
    present — a nested probabilities mapValue) and PATCHes it to the
    Firestore REST URL.  The try/catch swallows a write failure, so the
    function's only observable effect is the issued call itself. -/
def writeToFirestore (cfg : Config) (now : String) (userId : Option String)
    (data : WriteData) : OutCall :=
  let baseFields : List (String × FsValue) :=
    [("stress_level", .stringValue data.stress_level),
     ("hr", .doubleValue data.hr),
     ("timestamp", .timestampValue now)]
  let fields : List (String × FsValue) :=
    match data.probabilities with
    | none => baseFields
    | some probs =>
        baseFields ++
          [("probabilities",
            .mapValue (probs.map fun p => (p.1, FsValue.doubleValue (some p.2))))]
  .firestoreWrite "PATCH"
    ("https://firestore.googleapis.com/v1/" ++ firestoreDocPath cfg userId ++
      "?key=" ++ jsShow cfg.FIREBASE_API_KEY)
    fields

/-- The prediction-relay handler (module.exports of src/api/index.js):
    405 on non-POST (with Allow: POST), 400 when hr or userId is falsy,
    otherwise POST the raw readings to the prediction service; on a thrown
    error answer 500 API call failed; on a 2xx response whose data or
    stress_level is falsy answer 500 Bad API response; otherwise write the
    prediction to Firestore (failure swallowed) and answer 200. -/
def handler (cfg : Config) (env : Env) (req : Request) : HandlerResult :=
  if req.method ≠ "POST" then
    { response := { status := 405, body := .text "Method Not Allowed",
                    headers := [("Allow", "POST")] },
      calls := [] }
  else if !truthyNum req.body.hr || !truthyStr req.body.userId then
    { response := { status := 400,
                    body := .errorObj "Missing required fields: hr, userId",
                    headers := [] },
      calls := [] }
  else
    let payload := apiPayload req.body.hr req.body.hrv req.body.bt
    let predCall := OutCall.predictionCall RENDER_API_ENDPOINT payload
    match env.predOutcome with
    | .fail =>
        { response := { status := 500, body := .errorObj "API call failed",
                        headers := [] },
          calls := [predCall] }
    | .ok none =>
        { response := { status := 500, body := .errorObj "Bad API response",
                        headers := [] },
          calls := [predCall] }
    | .ok (some d) =>
        if truthyStr d.stress_level then
          let prediction := jsShow d.stress_level
          let w := writeToFirestore cfg env.now req.body.userId
            { stress_level := prediction, probabilities := d.probabilities,
              hr := req.body.hr }
          { response := { status := 200, body := .successObj prediction,
                          headers := [] },
            calls := [predCall, w] }
        else
          { response := { status := 500, body := .errorObj "Bad API response",
                          headers := [] },
            calls := [predCall] }

/-- The raw-upload variant (src/unnamed/part_001): 405 on non-POST (no
    Allow header), 500 when either Firebase credential is falsy, otherwise
    POST the raw hr/spo2/hrv readings (unvalidated; userId defaults to
    user1) to the Firestore REST URL; a write failure is surfaced as
    500 Failed to upload data, success as 200.  The prediction service
    is never contacted. -/
def handlerRaw (cfg : Config) (env : Env) (req : Request) : HandlerResult :=
  if req.method ≠ "POST" then
    { response := { status := 405, body := .messageObj "Method Not Allowed",
                    headers := [] },
      calls := [] }
  else
    let userId := req.body.userId.getD "user1"
    if !truthyStr cfg.FIREBASE_PROJECT_ID || !truthyStr cfg.FIREBASE_API_KEY then
      { response := { status := 500,
                      body := .errorObj "Firebase credentials missing",
                      headers := [] },
        calls := [] }
    else
      let docPath := "projects/" ++ jsShow cfg.FIREBASE_PROJECT_ID ++
        "/databases/(default)/documents/user_display/" ++ userId ++
        "/readings/latest"
      let fields : List (String × FsValue) :=
        [("hr", .doubleValue req.body.hr),
         ("spo2", .doubleValue req.body.spo2),
         ("hrv", .doubleValue req.body.hrv),
         ("timestamp", .timestampValue env.now)]
      let w := OutCall.firestoreWrite "POST"
        ("https://firestore.googleapis.com/v1/" ++ docPath ++ "?key=" ++
          jsShow cfg.FIREBASE_API_KEY)
        fields
      if env.writeOk then
        { response := { status := 200, body := .uploadObj "Data uploaded",
                        headers := [] },
          calls := [w] }
      else
        { response := { status := 500, body := .errorObj "Failed to upload data",
                        headers := [] },
          calls := [w] }

/-- Claim C1: on a POST with body hr 72, hrv 45, bt 36.6, userId u1, when the
    prediction service answers stress_level calm with probabilities calm 0.9
    and stressed 0.1, the relay handler returns 200 with success and the calm
    prediction, and issues exactly one Firestore write whose field map has
    stress_level as a stringValue calm, hr as a doubleValue 72, a
    server-generated timestampValue, and a nested probabilities mapValue with
    calm 0.9 and stressed 0.1 as doubleValues. -/
theorem c1_happy_path_ok (cfg : Config) (wk : Bool) (now : String) :
    handler cfg ⟨.ok (some ⟨some "calm", some [("calm", 0.9), ("stressed", 0.1)]⟩), wk, now⟩
      ⟨"POST", ⟨some 72, some 45, some 36.6, none, some "u1"⟩⟩ =
    ⟨⟨200, .successObj "calm", []⟩,
     [.predictionCall RENDER_API_ENDPOINT (apiPayload (some 72) (some 45) (some 36.6)),
      .firestoreWrite "PATCH"
        ("https://firestore.googleapis.com/v1/" ++ firestoreDocPath cfg (some "u1") ++
          "?key=" ++ jsShow cfg.FIREBASE_API_KEY)
        [("stress_level", .stringValue "calm"),
         ("hr", .doubleValue (some 72)),
         ("timestamp", .timestampValue now),
         ("probabilities", .mapValue
            [("calm", .doubleValue (some 0.9)),
             ("stressed", .doubleValue (some 0.1))])]]⟩ ∧
    writeCount (handler cfg
      ⟨.ok (some ⟨some "calm", some [("calm", 0.9), ("stressed", 0.1)]⟩), wk, now⟩
      ⟨"POST", ⟨some 72, some 45, some 36.6, none, some "u1"⟩⟩) = 1 := by
  constructor
  · simp [handler, writeToFirestore, apiPayload, truthyNum, truthyStr, jsShow]
  · simp [writeCount, handler, writeToFirestore, apiPayload, truthyNum, truthyStr,
      jsShow, isFirestoreWrite, List.countP, List.countP.go]

/-- Claim C2 counterexample: the raw-upload variant cited by the claim does not
    validate hr at all. A POST whose body has no hr (credentials present,
    store write succeeding) is answered 200, not 400, and one outbound
    Firestore write is issued — refuting the claim that every such request
    gets 400 with no outbound call. -/
theorem c2_raw_variant_counterexample :
    (handlerRaw ⟨some "key1", some "proj1"⟩ ⟨.ok none, true, "2025-01-01T00:00:00.000Z"⟩
        ⟨"POST", ⟨none, none, none, none, some "u1"⟩⟩).response.status ≠ 400 ∧
    writeCount (handlerRaw ⟨some "key1", some "proj1"⟩
        ⟨.ok none, true, "2025-01-01T00:00:00.000Z"⟩
        ⟨"POST", ⟨none, none, none, none, some "u1"⟩⟩) = 1 := by decide

/-- Claim C2 as amended: in the prediction-relay handler, every POST whose hr
    or userId is missing or falsy is answered 400 with the missing-fields
    error and no outbound call is issued; the raw-upload variant performs no
    such validation. -/
theorem c2_relay_validation (cfg : Config) (env : Env) (b : ReqBody)
    (h : truthyNum b.hr = false ∨ truthyStr b.userId = false) :
    handler cfg env ⟨"POST", b⟩ =
      ⟨⟨400, .errorObj "Missing required fields: hr, userId", []⟩, []⟩ := by
  rcases h with h | h <;> simp [handler, h]

/-- Witness for c2_relay_validation at a concrete missing-hr request. -/
theorem c2_relay_validation_witness :
    handler ⟨some "key1", some "proj1"⟩ ⟨.ok none, true, "2025-01-01T00:00:00.000Z"⟩
        ⟨"POST", ⟨none, some 45, none, none, some "u1"⟩⟩ =
      ⟨⟨400, .errorObj "Missing required fields: hr, userId", []⟩, []⟩ :=
  c2_relay_validation ⟨some "key1", some "proj1"⟩
    ⟨.ok none, true, "2025-01-01T00:00:00.000Z"⟩
    ⟨none, some 45, none, none, some "u1"⟩ (Or.inl rfl)

/-- Claim C3: on a validated POST, a 2xx prediction response whose body lacks
    stress_level makes the relay handler answer 500 with the bad-response
    error, and no Firestore write is issued. -/
theorem c3_missing_stress_level (cfg : Config) (wk : Bool) (now : String)
    (hrVal : Rat) (hrv bt spo2 : Option Rat) (uid : String)
    (probs : Option (List (String × Rat)))
    (h1 : hrVal ≠ 0) (h2 : uid ≠ "") :
    handler cfg ⟨.ok (some ⟨none, probs⟩), wk, now⟩
        ⟨"POST", ⟨some hrVal, hrv, bt, spo2, some uid⟩⟩ =
      ⟨⟨500, .errorObj "Bad API response", []⟩,
       [.predictionCall RENDER_API_ENDPOINT (apiPayload (some hrVal) hrv bt)]⟩ ∧
    writeCount (handler cfg ⟨.ok (some ⟨none, probs⟩), wk, now⟩
        ⟨"POST", ⟨some hrVal, hrv, bt, spo2, some uid⟩⟩) = 0 := by
  constructor
  · simp [handler, truthyNum, truthyStr, h1, h2]
  · simp [writeCount, handler, truthyNum, truthyStr, h1, h2, isFirestoreWrite,
      List.countP, List.countP.go]

/-- Witness for c3_missing_stress_level at concrete inputs. -/
theorem c3_missing_stress_level_witness :
    handler ⟨some "key1", some "proj1"⟩ ⟨.ok (some ⟨none, none⟩), true, "2025-01-01T00:00:00.000Z"⟩
        ⟨"POST", ⟨some 72, some 45, some 36.6, none, some "u1"⟩⟩ =
      ⟨⟨500, .errorObj "Bad API response", []⟩,
       [.predictionCall RENDER_API_ENDPOINT (apiPayload (some 72) (some 45) (some 36.6))]⟩ ∧
    writeCount (handler ⟨some "key1", some "proj1"⟩
        ⟨.ok (some ⟨none, none⟩), true, "2025-01-01T00:00:00.000Z"⟩
        ⟨"POST", ⟨some 72, some 45, some 36.6, none, some "u1"⟩⟩) = 0 :=
  c3_missing_stress_level ⟨some "key1", some "proj1"⟩ true "2025-01-01T00:00:00.000Z"
    72 (some 45) (some 36.6) none "u1" none (by decide) (by decide)

/-- Claim C4: on a validated POST, a transport-level failure of the prediction
    call (network error or non-2xx, which axios throws) makes the relay
    handler answer 500 with the call-failed error, and no Firestore write is
    issued. -/
theorem c4_transport_failure (cfg : Config) (wk : Bool) (now : String)
    (hrVal : Rat) (hrv bt spo2 : Option Rat) (uid : String)
    (h1 : hrVal ≠ 0) (h2 : uid ≠ "") :
    handler cfg ⟨.fail, wk, now⟩
        ⟨"POST", ⟨some hrVal, hrv, bt, spo2, some uid⟩⟩ =
      ⟨⟨500, .errorObj "API call failed", []⟩,
       [.predictionCall RENDER_API_ENDPOINT (apiPayload (some hrVal) hrv bt)]⟩ ∧
    writeCount (handler cfg ⟨.fail, wk, now⟩
        ⟨"POST", ⟨some hrVal, hrv, bt, spo2, some uid⟩⟩) = 0 := by
  constructor
  · simp [handler, truthyNum, truthyStr, h1, h2]
  · simp [writeCount, handler, truthyNum, truthyStr, h1, h2, isFirestoreWrite,
      List.countP, List.countP.go]

/-- Witness for c4_transport_failure at concrete inputs. -/
theorem c4_transport_failure_witness :
    handler ⟨some "key1", some "proj1"⟩ ⟨.fail, true, "2025-01-01T00:00:00.000Z"⟩
        ⟨"POST", ⟨some 72, some 45, some 36.6, none, some "u1"⟩⟩ =
      ⟨⟨500, .errorObj "API call failed", []⟩,
       [.predictionCall RENDER_API_ENDPOINT (apiPayload (some 72) (some 45) (some 36.6))]⟩ ∧
    writeCount (handler ⟨some "key1", some "proj1"⟩ ⟨.fail, true, "2025-01-01T00:00:00.000Z"⟩
        ⟨"POST", ⟨some 72, some 45, some 36.6, none, some "u1"⟩⟩) = 0 :=
  c4_transport_failure ⟨some "key1", some "proj1"⟩ true "2025-01-01T00:00:00.000Z"
    72 (some 45) (some 36.6) none "u1" (by decide) (by decide)
/-- Claim C5: when the prediction succeeds with a truthy stress_level but the
    Firestore write fails (writeOk false), the failure is absorbed inside
    writeToFirestore and the relay handler still answers 200 with the correct
    prediction; the write attempt is still issued. -/
theorem c5_write_failure_absorbed (cfg : Config) (now : String)
    (hrVal : Rat) (hrv bt spo2 : Option Rat) (uid sl : String)
    (probs : Option (List (String × Rat)))
    (h1 : hrVal ≠ 0) (h2 : uid ≠ "") (h3 : sl ≠ "") :
    (handler cfg ⟨.ok (some ⟨some sl, probs⟩), false, now⟩
        ⟨"POST", ⟨some hrVal, hrv, bt, spo2, some uid⟩⟩).response =
      ⟨200, .successObj sl, []⟩ ∧
    writeCount (handler cfg ⟨.ok (some ⟨some sl, probs⟩), false, now⟩
        ⟨"POST", ⟨some hrVal, hrv, bt, spo2, some uid⟩⟩) = 1 := by
  constructor
  · simp [handler, truthyNum, truthyStr, h1, h2, h3, jsShow]
  · simp [writeCount, handler, writeToFirestore, truthyNum, truthyStr, h1, h2, h3,
      jsShow, isFirestoreWrite, List.countP, List.countP.go]

/-- Witness for c5_write_failure_absorbed at concrete inputs. -/
theorem c5_write_failure_absorbed_witness :
    (handler ⟨some "key1", some "proj1"⟩
        ⟨.ok (some ⟨some "calm", none⟩), false, "2025-01-01T00:00:00.000Z"⟩
        ⟨"POST", ⟨some 72, some 45, some 36.6, none, some "u1"⟩⟩).response =
      ⟨200, .successObj "calm", []⟩ ∧
    writeCount (handler ⟨some "key1", some "proj1"⟩
        ⟨.ok (some ⟨some "calm", none⟩), false, "2025-01-01T00:00:00.000Z"⟩
        ⟨"POST", ⟨some 72, some 45, some 36.6, none, some "u1"⟩⟩) = 1 :=
  c5_write_failure_absorbed ⟨some "key1", some "proj1"⟩ "2025-01-01T00:00:00.000Z"
    72 (some 45) (some 36.6) none "u1" "calm" none (by decide) (by decide) (by decide)

/-- Claim C6 counterexample: the raw-upload variant cited by the claim answers
    a GET with 405 but sets no headers at all, so the Allow POST header the
    claim requires is absent. -/
theorem c6_raw_variant_counterexample :
    (handlerRaw ⟨some "key1", some "proj1"⟩ ⟨.ok none, true, "2025-01-01T00:00:00.000Z"⟩
        ⟨"GET", ⟨some 72, none, none, none, some "u1"⟩⟩).response.status = 405 ∧
    (handlerRaw ⟨some "key1", some "proj1"⟩ ⟨.ok none, true, "2025-01-01T00:00:00.000Z"⟩
        ⟨"GET", ⟨some 72, none, none, none, some "u1"⟩⟩).response.headers = [] := by
  decide

/-- Claim C6 as amended: in the prediction-relay handler every non-POST request
    is answered 405 Method Not Allowed with header Allow POST and no outbound
    call; the result does not depend on the request body (the right-hand side
    is body-free), so the body is never inspected. The raw-upload variant also
    answers 405 before touching the body but sets no Allow header. -/
theorem c6_relay_method_guard (cfg : Config) (env : Env) (m : String) (b : ReqBody)
    (h : m ≠ "POST") :
    handler cfg env ⟨m, b⟩ =
      ⟨⟨405, .text "Method Not Allowed", [("Allow", "POST")]⟩, []⟩ := by
  simp [handler, h]

/-- Witness for c6_relay_method_guard at a concrete GET request. -/
theorem c6_relay_method_guard_witness :
    handler ⟨some "key1", some "proj1"⟩ ⟨.ok none, true, "2025-01-01T00:00:00.000Z"⟩
        ⟨"GET", ⟨some 72, none, none, none, some "u1"⟩⟩ =
      ⟨⟨405, .text "Method Not Allowed", [("Allow", "POST")]⟩, []⟩ :=
  c6_relay_method_guard ⟨some "key1", some "proj1"⟩
    ⟨.ok none, true, "2025-01-01T00:00:00.000Z"⟩ "GET"
    ⟨some 72, none, none, none, some "u1"⟩ (by decide)

/-- Claim C7 counterexample: the prediction-relay handler performs no
    credential check. With both Firebase credentials absent and a valid POST
    whose prediction succeeds, it answers 200 — not 500 — and issues two
    outbound calls (the prediction call and the Firestore write attempt),
    refuting the claim that missing credentials yield 500 before any outbound
    call. -/
theorem c7_relay_counterexample :
    (handler ⟨none, none⟩ ⟨.ok (some ⟨some "calm", none⟩), true, "2025-01-01T00:00:00.000Z"⟩
        ⟨"POST", ⟨some 72, none, none, none, some "u1"⟩⟩).response.status = 200 ∧
    (handler ⟨none, none⟩ ⟨.ok (some ⟨some "calm", none⟩), true, "2025-01-01T00:00:00.000Z"⟩
        ⟨"POST", ⟨some 72, none, none, none, some "u1"⟩⟩).calls.length = 2 := by
  decide

/-- Claim C7 as amended: only the raw-upload variant checks the Firebase
    credentials; there, on a POST with either credential absent or empty, the
    handler answers 500 Firebase credentials missing and issues no outbound
    call. The prediction-relay handler performs no such check. -/
theorem c7_raw_variant_credentials (cfg : Config) (env : Env) (b : ReqBody)
    (h : truthyStr cfg.FIREBASE_PROJECT_ID = false ∨
         truthyStr cfg.FIREBASE_API_KEY = false) :
    handlerRaw cfg env ⟨"POST", b⟩ =
      ⟨⟨500, .errorObj "Firebase credentials missing", []⟩, []⟩ := by
  rcases h with h | h <;> simp [handlerRaw, h]

/-- Witness for c7_raw_variant_credentials at a concrete request with the
    project identifier missing. -/
theorem c7_raw_variant_credentials_witness :
    handlerRaw ⟨some "key1", none⟩ ⟨.ok none, true, "2025-01-01T00:00:00.000Z"⟩
        ⟨"POST", ⟨some 72, none, none, none, some "u1"⟩⟩ =
      ⟨⟨500, .errorObj "Firebase credentials missing", []⟩, []⟩ :=
  c7_raw_variant_credentials ⟨some "key1", none⟩
    ⟨.ok none, true, "2025-01-01T00:00:00.000Z"⟩
    ⟨some 72, none, none, none, some "u1"⟩ (Or.inl rfl)
/-- Claim C8: for every validated reading, the first outbound call of the relay
    handler — under every environment — is the prediction request with mode
    raw and HR, HRV, BT copied verbatim from the body; the same reading yields
    the same request under any other configuration and environment
    (determinism); and absent optional hrv and bt pass through as none rather
    than being defaulted to zero. -/
theorem c8_payload_verbatim (cfg cfg₂ : Config) (env env₂ : Env) (hrVal : Rat)
    (hrv bt spo2 : Option Rat) (uid : String)
    (h1 : hrVal ≠ 0) (h2 : uid ≠ "") :
    (handler cfg env ⟨"POST", ⟨some hrVal, hrv, bt, spo2, some uid⟩⟩).calls.head? =
      some (.predictionCall RENDER_API_ENDPOINT ⟨"raw", ⟨some hrVal, hrv, bt⟩⟩) ∧
    (handler cfg env ⟨"POST", ⟨some hrVal, hrv, bt, spo2, some uid⟩⟩).calls.head? =
      (handler cfg₂ env₂ ⟨"POST", ⟨some hrVal, hrv, bt, spo2, some uid⟩⟩).calls.head? ∧
    (apiPayload (some hrVal) none none).raw.HRV = none ∧
    (apiPayload (some hrVal) none none).raw.BT = none := by
  have key : ∀ (c : Config) (e : Env),
      (handler c e ⟨"POST", ⟨some hrVal, hrv, bt, spo2, some uid⟩⟩).calls.head? =
        some (.predictionCall RENDER_API_ENDPOINT ⟨"raw", ⟨some hrVal, hrv, bt⟩⟩) := by
    intro c e
    rcases e with ⟨po, wk, now⟩
    cases po with
    | fail => simp [handler, truthyNum, truthyStr, h1, h2, apiPayload]
    | ok data =>
        cases data with
        | none => simp [handler, truthyNum, truthyStr, h1, h2, apiPayload]
        | some d =>
            rcases d with ⟨sl, probs⟩
            cases sl with
            | none => simp [handler, truthyNum, truthyStr, h1, h2, apiPayload]
            | some s =>
                by_cases hs : s = "" <;>
                  simp [handler, truthyNum, truthyStr, h1, h2, hs, apiPayload]
  exact ⟨key cfg env, (key cfg env).trans (key cfg₂ env₂).symm, rfl, rfl⟩

/-- Witness for c8_payload_verbatim: the reading hr 72, hrv 45, bt 36.6 yields
    the same verbatim prediction request under two different configurations
    and environments. -/
theorem c8_payload_verbatim_witness :
    (handler ⟨some "key1", some "proj1"⟩ ⟨.fail, true, "2025-01-01T00:00:00.000Z"⟩
        ⟨"POST", ⟨some 72, some 45, some 36.6, none, some "u1"⟩⟩).calls.head? =
      some (.predictionCall RENDER_API_ENDPOINT ⟨"raw", ⟨some 72, some 45, some 36.6⟩⟩) ∧
    (handler ⟨some "key1", some "proj1"⟩ ⟨.fail, true, "2025-01-01T00:00:00.000Z"⟩
        ⟨"POST", ⟨some 72, some 45, some 36.6, none, some "u1"⟩⟩).calls.head? =
      (handler ⟨none, none⟩ ⟨.ok none, false, "2026-01-01T00:00:00.000Z"⟩
        ⟨"POST", ⟨some 72, some 45, some 36.6, none, some "u1"⟩⟩).calls.head? ∧
    (apiPayload (some 72) none none).raw.HRV = none ∧
    (apiPayload (some 72) none none).raw.BT = none :=
  c8_payload_verbatim ⟨some "key1", some "proj1"⟩ ⟨none, none⟩
    ⟨.fail, true, "2025-01-01T00:00:00.000Z"⟩
    ⟨.ok none, false, "2026-01-01T00:00:00.000Z"⟩
    72 (some 45) (some 36.6) none "u1" (by decide) (by decide)

/-- Claim C9: a 2xx prediction response whose stress_level is present but
    falsy (the empty string) is treated exactly like a missing stress_level:
    the relay handler answers 500 Bad API response, issues no Firestore
    write, and the whole result coincides with the missing-field result. -/
theorem c9_falsy_stress_level (cfg : Config) (wk : Bool) (now : String)
    (hrVal : Rat) (hrv bt spo2 : Option Rat) (uid : String)
    (probs : Option (List (String × Rat)))
    (h1 : hrVal ≠ 0) (h2 : uid ≠ "") :
    handler cfg ⟨.ok (some ⟨some "", probs⟩), wk, now⟩
        ⟨"POST", ⟨some hrVal, hrv, bt, spo2, some uid⟩⟩ =
      ⟨⟨500, .errorObj "Bad API response", []⟩,
       [.predictionCall RENDER_API_ENDPOINT (apiPayload (some hrVal) hrv bt)]⟩ ∧
    handler cfg ⟨.ok (some ⟨some "", probs⟩), wk, now⟩
        ⟨"POST", ⟨some hrVal, hrv, bt, spo2, some uid⟩⟩ =
      handler cfg ⟨.ok (some ⟨none, probs⟩), wk, now⟩
        ⟨"POST", ⟨some hrVal, hrv, bt, spo2, some uid⟩⟩ ∧
    writeCount (handler cfg ⟨.ok (some ⟨some "", probs⟩), wk, now⟩
        ⟨"POST", ⟨some hrVal, hrv, bt, spo2, some uid⟩⟩) = 0 := by
  refine ⟨?_, ?_, ?_⟩
  · simp [handler, truthyNum, truthyStr, h1, h2]
  · simp [handler, truthyNum, truthyStr, h1, h2]
  · simp [writeCount, handler, truthyNum, truthyStr, h1, h2, isFirestoreWrite,
      List.countP, List.countP.go]

/-- Witness for c9_falsy_stress_level at concrete inputs. -/
theorem c9_falsy_stress_level_witness :
    handler ⟨some "key1", some "proj1"⟩
        ⟨.ok (some ⟨some "", some [("calm", 0.9)]⟩), true, "2025-01-01T00:00:00.000Z"⟩
        ⟨"POST", ⟨some 72, some 45, some 36.6, none, some "u1"⟩⟩ =
      ⟨⟨500, .errorObj "Bad API response", []⟩,
       [.predictionCall RENDER_API_ENDPOINT (apiPayload (some 72) (some 45) (some 36.6))]⟩ ∧
    handler ⟨some "key1", some "proj1"⟩
        ⟨.ok (some ⟨some "", some [("calm", 0.9)]⟩), true, "2025-01-01T00:00:00.000Z"⟩
        ⟨"POST", ⟨some 72, some 45, some 36.6, none, some "u1"⟩⟩ =
      handler ⟨some "key1", some "proj1"⟩
        ⟨.ok (some ⟨none, some [("calm", 0.9)]⟩), true, "2025-01-01T00:00:00.000Z"⟩
        ⟨"POST", ⟨some 72, some 45, some 36.6, none, some "u1"⟩⟩ ∧
    writeCount (handler ⟨some "key1", some "proj1"⟩
        ⟨.ok (some ⟨some "", some [("calm", 0.9)]⟩), true, "2025-01-01T00:00:00.000Z"⟩
        ⟨"POST", ⟨some 72, some 45, some 36.6, none, some "u1"⟩⟩) = 0 :=
  c9_falsy_stress_level ⟨some "key1", some "proj1"⟩ true "2025-01-01T00:00:00.000Z"
    72 (some 45) (some 36.6) none "u1" (some [("calm", 0.9)]) (by decide) (by decide)

/-- Claim C10: in the raw-upload variant, every POST that passes the
    credential check issues exactly one Firestore write and never contacts
    the prediction service; a write failure is surfaced as 500 Failed to
    upload data, and a successful write as 200 Data uploaded. -/
theorem c10_raw_upload_behavior (cfg : Config) (env : Env) (b : ReqBody)
    (hp : truthyStr cfg.FIREBASE_PROJECT_ID = true)
    (hk : truthyStr cfg.FIREBASE_API_KEY = true) :
    predCallCount (handlerRaw cfg env ⟨"POST", b⟩) = 0 ∧
    writeCount (handlerRaw cfg env ⟨"POST", b⟩) = 1 ∧
    (env.writeOk = false →
      (handlerRaw cfg env ⟨"POST", b⟩).response =
        ⟨500, .errorObj "Failed to upload data", []⟩) ∧
    (env.writeOk = true →
      (handlerRaw cfg env ⟨"POST", b⟩).response =
        ⟨200, .uploadObj "Data uploaded", []⟩) := by
  rcases env with ⟨po, wk, now⟩
  cases wk <;>
    simp [handlerRaw, hp, hk, predCallCount, writeCount, isPredictionCall,
      isFirestoreWrite, List.countP, List.countP.go]

/-- Witness for c10_raw_upload_behavior at a concrete request whose store
    write fails. -/
theorem c10_raw_upload_behavior_witness :
    predCallCount (handlerRaw ⟨some "key1", some "proj1"⟩
        ⟨.ok none, false, "2025-01-01T00:00:00.000Z"⟩
        ⟨"POST", ⟨some 72, some 45, none, some 98, some "u1"⟩⟩) = 0 ∧
    writeCount (handlerRaw ⟨some "key1", some "proj1"⟩
        ⟨.ok none, false, "2025-01-01T00:00:00.000Z"⟩
        ⟨"POST", ⟨some 72, some 45, none, some 98, some "u1"⟩⟩) = 1 ∧
    ((⟨.ok none, false, "2025-01-01T00:00:00.000Z"⟩ : Env).writeOk = false →
      (handlerRaw ⟨some "key1", some "proj1"⟩
          ⟨.ok none, false, "2025-01-01T00:00:00.000Z"⟩
          ⟨"POST", ⟨some 72, some 45, none, some 98, some "u1"⟩⟩).response =
        ⟨500, .errorObj "Failed to upload data", []⟩) ∧
    ((⟨.ok none, false, "2025-01-01T00:00:00.000Z"⟩ : Env).writeOk = true →
      (handlerRaw ⟨some "key1", some "proj1"⟩
          ⟨.ok none, false, "2025-01-01T00:00:00.000Z"⟩
          ⟨"POST", ⟨some 72, some 45, none, some 98, some "u1"⟩⟩).response =
        ⟨200, .uploadObj "Data uploaded", []⟩) :=
  c10_raw_upload_behavior ⟨some "key1", some "proj1"⟩
    ⟨.ok none, false, "2025-01-01T00:00:00.000Z"⟩
    ⟨some 72, some 45, none, some 98, some "u1"⟩ rfl rfl

end AuraSense
